import Mathlib

/-!
Verification of the WinOperationAuto input-automation core.

The definitions below are a shallow embedding of the C++ sources:
`src/input_injection.cpp` (text injection), `src/event_logger.cpp`
(virtual-key to character mapping), `src/special_keys.cpp` (the
special-key gesture state machine and the suggestion workflow) and the
keyboard branch of `ProcessRawInput` in `src/main.cpp`.

OS-level effects are made explicit: every `SendInput` call consumes one
index of a success oracle `Nat → Bool`; the external suggestion
generator is a parameter `Option String` (`none` = script failure or
unreadable output, `some line` = the line read back); overlay and
injector initialization succeeded (the program only reaches the event
loop after successful initialization).
-/

namespace WinOpAuto

/-- Windows virtual-key code for Shift (VK_SHIFT). -/
def VK_SHIFT : Nat := 0x10
/-- Windows virtual-key code for Ctrl (VK_CONTROL). -/
def VK_CONTROL : Nat := 0x11
/-- Windows virtual-key code for Alt (VK_MENU). -/
def VK_MENU : Nat := 0x12
/-- Windows virtual-key code for Escape (VK_ESCAPE). -/
def VK_ESCAPE : Nat := 0x1B
/-- Windows virtual-key code for Space (VK_SPACE). -/
def VK_SPACE : Nat := 0x20
/-- Raw-input flag bit: this event is a key release (RI_KEY_BREAK). -/
def RI_KEY_BREAK : Nat := 0x01
/-- Raw-input flag bit: extended key, distinguishes Right Ctrl (RI_KEY_E0). -/
def RI_KEY_E0 : Nat := 0x02

/-- Models the Windows `VkKeyScanA` API for the standard US keyboard
layout: character to (virtual-key code, shift-required bit of the
modifier byte). `none` models the API returning `-1` (no key for this
character). This is platform behaviour, not repository code. -/
def vkKeyScanA (c : Char) : Option (Nat × Bool) :=
  if 'a' ≤ c ∧ c ≤ 'z' then some (0x41 + (c.toNat - 0x61), false)
  else if 'A' ≤ c ∧ c ≤ 'Z' then some (0x41 + (c.toNat - 0x41), true)
  else if '0' ≤ c ∧ c ≤ '9' then some (0x30 + (c.toNat - 0x30), false)
  else if c = ' ' then some (0x20, false)
  else if c = ')' then some (0x30, true)
  else if c = '!' then some (0x31, true)
  else if c = '@' then some (0x32, true)
  else if c = '#' then some (0x33, true)
  else if c = '$' then some (0x34, true)
  else if c = '%' then some (0x35, true)
  else if c = '^' then some (0x36, true)
  else if c = '&' then some (0x37, true)
  else if c = '*' then some (0x38, true)
  else if c = '(' then some (0x39, true)
  else if c = ';' then some (0xBA, false)
  else if c = ':' then some (0xBA, true)
  else if c = '=' then some (0xBB, false)
  else if c = '+' then some (0xBB, true)
  else if c = ',' then some (0xBC, false)
  else if c = '<' then some (0xBC, true)
  else if c = '-' then some (0xBD, false)
  else if c = '_' then some (0xBD, true)
  else if c = '.' then some (0xBE, false)
  else if c = '>' then some (0xBE, true)
  else if c = '/' then some (0xBF, false)
  else if c = '?' then some (0xBF, true)
  else if c = Char.ofNat 0x60 then some (0xC0, false)
  else if c = '~' then some (0xC0, true)
  else if c = '[' then some (0xDB, false)
  else if c = Char.ofNat 0x7B then some (0xDB, true)
  else if c = Char.ofNat 0x5C then some (0xDC, false)
  else if c = '|' then some (0xDC, true)
  else if c = ']' then some (0xDD, false)
  else if c = Char.ofNat 0x7D then some (0xDD, true)
  else if c = Char.ofNat 0x27 then some (0xDE, false)
  else if c = Char.ofNat 0x22 then some (0xDE, true)
  else none

/-- Embeds `InputInjector::CharToVirtualKey` (input_injection.cpp:103-131):
uppercase letters, lowercase letters, digits and space are mapped
directly; everything else falls back to `VkKeyScanA`, `0` meaning
"cannot convert". -/
def charToVirtualKey (c : Char) : Nat :=
  if 'A' ≤ c ∧ c ≤ 'Z' then 0x41 + (c.toNat - 0x41)
  else if 'a' ≤ c ∧ c ≤ 'z' then 0x41 + (c.toNat - 0x61)
  else if '0' ≤ c ∧ c ≤ '9' then 0x30 + (c.toNat - 0x30)
  else if c = ' ' then VK_SPACE
  else
    match vkKeyScanA c with
    | some p => p.1
    | none => 0

/-- The `HIBYTE(VkKeyScanA(c)) & 1` test of `SendTextString`
(input_injection.cpp:54-58). When `VkKeyScanA` returns `-1` the high
byte is `0xFF`, so the bit is set; that case is unreachable in the
loop because `CharToVirtualKey` then returned `0`. -/
def charNeedsShift (c : Char) : Bool :=
  match vkKeyScanA c with
  | some p => p.2
  | none => true

/-- One synthetic keyboard event handed to `SendInput`
(`INPUT.ki.wVk` and the `KEYEVENTF_KEYUP` flag). -/
structure InjEvent where
  vk : Nat
  isKeyUp : Bool
deriving Repr, DecidableEq

/-- Embeds `InputInjector::SendVirtualKey` on the initialized path
(input_injection.cpp:15-28): emits one event; the OS accepts or
rejects it according to the oracle at the current call index `n`. -/
def sendVirtualKey (oracle : Nat → Bool) (n : Nat) (vk : Nat) (isKeyUp : Bool) :
    List InjEvent × Nat × Bool :=
  ([⟨vk, isKeyUp⟩], n + 1, oracle n)

/-- Embeds `InputInjector::SendKeyPress` (input_injection.cpp:30-39): key
down then key up; the key up is issued even if the key down failed
(`success &= ...` evaluates both sides). -/
def sendKeyPress (oracle : Nat → Bool) (n : Nat) (vk : Nat) :
    List InjEvent × Nat × Bool :=
  let r1 := sendVirtualKey oracle n vk false
  let r2 := sendVirtualKey oracle r1.2.1 vk true
  (r1.1 ++ r2.1, r2.2.1, r1.2.2 && r2.2.2)

/-- The body of the per-character loop of
`InputInjector::SendTextString` (input_injection.cpp:50-77): returns
the events emitted for this character, the next oracle index, and this
character's contribution to the accumulated result (`true` when the
character is skipped as unmappable — it then does not touch
`success`). The return values of the two shift `SendVirtualKey` calls
are discarded, exactly as in the source. -/
def sendTextChar (oracle : Nat → Bool) (n : Nat) (c : Char) :
    List InjEvent × Nat × Bool :=
  let vkCode := charToVirtualKey c
  if vkCode ≠ 0 then
    if charNeedsShift c then
      let r1 := sendVirtualKey oracle n VK_SHIFT false
      let r2 := sendKeyPress oracle r1.2.1 vkCode
      let r3 := sendVirtualKey oracle r2.2.1 VK_SHIFT true
      (r1.1 ++ r2.1 ++ r3.1, r3.2.1, r2.2.2)
    else
      let r2 := sendKeyPress oracle n vkCode
      (r2.1, r2.2.1, r2.2.2)
  else
    ([], n, true)

/-- The `for (char c : text)` loop of `SendTextString`: iterates over
every character unconditionally and accumulates `success` by
(non-aborting) AND. -/
def sendTextLoop (oracle : Nat → Bool) (n : Nat) : List Char → List InjEvent × Nat × Bool
  | [] => ([], n, true)
  | c :: cs =>
    let r := sendTextChar oracle n c
    let rs := sendTextLoop oracle r.2.1 cs
    (r.1 ++ rs.1, rs.2.1, r.2.2 && rs.2.2)

/-- Embeds `InputInjector::SendTextString` (input_injection.cpp:41-80):
returns the full emitted event trace and the reported result. When the
injector is not initialized, nothing is emitted and the call fails. -/
def sendTextString (initialized : Bool) (oracle : Nat → Bool) (text : List Char) :
    List InjEvent × Bool :=
  if initialized then
    let r := sendTextLoop oracle 0 text
    (r.1, r.2.2)
  else
    ([], false)

/-- The per-character injection results of a `SendTextString` call, in
order: one boolean per character of the input (a skipped unmappable
character counts `true`, i.e. it leaves the accumulator unchanged). -/
def perCharResults (oracle : Nat → Bool) (n : Nat) : List Char → List Bool
  | [] => []
  | c :: cs =>
    (sendTextChar oracle n c).2.2 :: perCharResults oracle (sendTextChar oracle n c).2.1 cs

/-- The events `SendTextString` emits for one character, as a function
of the character alone: the emitted trace never depends on the success
oracle (proved below), because the source never branches on a failed
injection. -/
def pureCharEvents (c : Char) : List InjEvent :=
  let vkCode := charToVirtualKey c
  if vkCode ≠ 0 then
    if charNeedsShift c then
      [⟨VK_SHIFT, false⟩, ⟨vkCode, false⟩, ⟨vkCode, true⟩, ⟨VK_SHIFT, true⟩]
    else
      [⟨vkCode, false⟩, ⟨vkCode, true⟩]
  else
    []

/-- Embeds `EventLogger::IsPrintableKey` (event_logger.cpp:207-222): letters,
digits, space and the twelve OEM punctuation keys. -/
def isPrintableKey (vKey : Nat) : Bool :=
  (0x41 ≤ vKey && vKey ≤ 0x5A) || (0x30 ≤ vKey && vKey ≤ 0x39) ||
  vKey = 0x20 || vKey = 0xBA || vKey = 0xBB || vKey = 0xBC || vKey = 0xBD ||
  vKey = 0xBE || vKey = 0xBF || vKey = 0xC0 || vKey = 0xDB || vKey = 0xDC ||
  vKey = 0xDD || vKey = 0xDE

/-- Embeds `EventLogger::VKeyToChar` (event_logger.cpp:160-205). The statics
`s_shiftPressed` and `s_capsLockOn` are passed explicitly. Letters are
uppercased exactly when `shiftPressed XOR capsLockOn`; digits use the
fixed shifted-symbol row; punctuation uses the fixed table; everything
non-printable yields the empty string. -/
def vKeyToChar (shiftPressed capsLockOn : Bool) (vKey : Nat) : String :=
  if ¬ isPrintableKey vKey then ""
  else if 0x41 ≤ vKey ∧ vKey ≤ 0x5A then
    let letter := Char.ofNat (0x41 + (vKey - 0x41))
    let shouldBeUppercase := xor shiftPressed capsLockOn
    if ¬ shouldBeUppercase then
      String.singleton (Char.ofNat (letter.toNat - 0x41 + 0x61))
    else
      String.singleton letter
  else if 0x30 ≤ vKey ∧ vKey ≤ 0x39 then
    if shiftPressed then
      String.singleton ((")!@#$%^&*(".toList).getD (vKey - 0x30) ' ')
    else
      String.singleton (Char.ofNat (0x30 + (vKey - 0x30)))
  else if vKey = 0x20 then " "
  else if vKey = 0xBA then (if shiftPressed then ":" else ";")
  else if vKey = 0xBB then (if shiftPressed then "+" else "=")
  else if vKey = 0xBC then (if shiftPressed then "<" else ",")
  else if vKey = 0xBD then (if shiftPressed then "_" else "-")
  else if vKey = 0xBE then (if shiftPressed then ">" else ".")
  else if vKey = 0xBF then (if shiftPressed then "?" else "/")
  else if vKey = 0xC0 then
    (if shiftPressed then "~" else String.singleton (Char.ofNat 0x60))
  else if vKey = 0xDB then
    (if shiftPressed then "\x7b" else "[")
  else if vKey = 0xDC then (if shiftPressed then "|" else "\\")
  else if vKey = 0xDD then
    (if shiftPressed then "\x7d" else "]")
  else if vKey = 0xDE then
    (if shiftPressed then String.singleton (Char.ofNat 0x22)
     else String.singleton (Char.ofNat 0x27))
  else ""

/-- Embeds `SpecialKeyState` (special_keys.h:9-16) with its default
constructor values. -/
structure SpecialKeyState where
  isPressed : Bool := false
  hadInterveningKeys : Bool := false
  pressTimestamp : Nat := 0
  pressPosition : Int × Int := (0, 0)
deriving Repr, DecidableEq, Inhabited

/-- The process-wide mutable state touched by the keyboard path:
`SpecialKeyHandler`'s statics (special_keys.cpp:8-11), the overlay's
visible suggestion (suggestion_overlay.cpp:6-8, assuming the overlay
window was created), and `g_running` (main.cpp:74). -/
structure SysState where
  specialKeys : List Nat
  specialKeyStates : List SpecialKeyState
  pendingSuggestion : String
  hasPendingSuggestion : Bool
  overlayShown : Bool
  overlayText : String
  running : Bool
deriving Repr, DecidableEq

/-- Observable calls made while processing an event: text handed to
`InputInjector::SendTextString`, `SuggestionOverlay::HideSuggestion` /
`ShowSuggestion`, a gesture handler firing or being suppressed, and
the Escape shutdown. -/
inductive Action where
  | injectText (text : String)
  | hideOverlay
  | showOverlay (text : String)
  | gestureFired (vKey : Nat) (isExtended : Bool)
  | gestureSuppressed (vKey : Nat)
  | shutdown
deriving Repr, DecidableEq

/-- Whether an action records a release outcome of the special-key
state machine (gesture fired or gesture suppressed). -/
def Action.isGesture : Action → Bool
  | Action.gestureFired _ _ => true
  | Action.gestureSuppressed _ => true
  | _ => false

/-- The loop of `SpecialKeyHandler::GetSpecialKeyIndex`
(special_keys.cpp:32-39), carrying the running index. -/
def getSpecialKeyIndexAux (v : Nat) (i : Nat) : List Nat → Int
  | [] => -1
  | k :: ks => if k = v then (i : Int) else getSpecialKeyIndexAux v (i + 1) ks

/-- Embeds `SpecialKeyHandler::GetSpecialKeyIndex`: index of `v` in the
monitored-key list, `-1` when absent. -/
def getSpecialKeyIndex (keys : List Nat) (v : Nat) : Int :=
  getSpecialKeyIndexAux v 0 keys

/-- Embeds `SpecialKeyHandler::AddSpecialKey` (special_keys.cpp:99-107):
no-op when the key is already monitored, otherwise appends the key and
a default-constructed state. -/
def addSpecialKey (keys : List Nat) (states : List SpecialKeyState) (v : Nat) :
    List Nat × List SpecialKeyState :=
  if 0 ≤ getSpecialKeyIndex keys v then
    (keys, states)
  else
    (keys ++ [v], states ++ [({} : SpecialKeyState)])

/-- Embeds `SpecialKeyHandler::NotifyRegularKeyPressed`
(special_keys.cpp:113-122): marks `hadInterveningKeys` on every
currently pressed special key. The C++ loop runs over indices
`0 .. keys.size()-1` of the state vector; the two vectors always have
equal length (`Initialize` resizes them together and `AddSpecialKey`
appends pairwise), so this is a map over the state list. -/
def notifyRegularKeyPressed (states : List SpecialKeyState) : List SpecialKeyState :=
  states.map fun st =>
    if st.isPressed then { st with hadInterveningKeys := true } else st

/-- Embeds `SpecialKeyHandler::OnRightCtrlPressed` (special_keys.cpp:175-203):
with a pending non-empty suggestion, hands it to
`InputInjector::SendTextString` (whose result only affects console
output), then unconditionally clears the pending suggestion and hides
the overlay; otherwise only prints a no-op notice. -/
def onRightCtrlPressed (oracle : Nat → Bool) (s : SysState) : SysState × List Action :=
  if s.hasPendingSuggestion ∧ s.pendingSuggestion ≠ "" then
    let text := s.pendingSuggestion
    let _success := (sendTextString true oracle text.toList).2
    ({ s with pendingSuggestion := "", hasPendingSuggestion := false,
              overlayShown := false, overlayText := "" },
     [Action.injectText text, Action.hideOverlay])
  else
    (s, [])

/-- Embeds `SpecialKeyHandler::OnLeftCtrlPressed` (special_keys.cpp:125-172).
`genResult` stands for the external generator run: `none` when the
script fails or its output cannot be read (the pending flag is
cleared, the stored text is left as is), `some line` for the line read
back — empty clears the flag, non-empty becomes the pending
suggestion and is shown in the overlay. -/
def onLeftCtrlPressed (genResult : Option String) (s : SysState) : SysState × List Action :=
  match genResult with
  | some line =>
    if line ≠ "" then
      ({ s with pendingSuggestion := line, hasPendingSuggestion := true,
                overlayShown := true, overlayText := line },
       [Action.showOverlay line])
    else
      ({ s with hasPendingSuggestion := false }, [])
  | none => ({ s with hasPendingSuggestion := false }, [])

/-- Embeds `SpecialKeyHandler::ProcessSpecialKeyEvent` (special_keys.cpp:50-97):
returns the new state, whether the event was handled (i.e. the key is
monitored), and the observable actions. On key-down the key's tracking
state is set pressed with a cleared intervening flag; on key-up a
gesture fires when the state was pressed without intervening keys
(routed by `RI_KEY_E0` for Ctrl), is suppressed when pressed with
intervening keys, and nothing fires when the state was not pressed;
then `isPressed` and `hadInterveningKeys` are reset. -/
def processSpecialKeyEvent (oracle : Nat → Bool) (genResult : Option String)
    (s : SysState) (vKey flags : Nat) (isKeyUp : Bool)
    (timestamp : Nat) (cursorPos : Int × Int) : SysState × Bool × List Action :=
  let idx := getSpecialKeyIndex s.specialKeys vKey
  if idx < 0 then
    (s, false, [])
  else
    let i := idx.toNat
    let keyState := s.specialKeyStates.getD i {}
    if ¬ isKeyUp then
      let newStates := s.specialKeyStates.set i
        { keyState with isPressed := true, hadInterveningKeys := false,
                        pressTimestamp := timestamp, pressPosition := cursorPos }
      ({ s with specialKeyStates := newStates }, true, [])
    else
      let fired :=
        if keyState.isPressed ∧ ¬ keyState.hadInterveningKeys then
          if vKey = VK_CONTROL then
            if flags &&& RI_KEY_E0 ≠ 0 then
              let r := onRightCtrlPressed oracle s
              (r.1, Action.gestureFired vKey true :: r.2)
            else
              let r := onLeftCtrlPressed genResult s
              (r.1, Action.gestureFired vKey false :: r.2)
          else
            (s, [Action.gestureFired vKey (flags &&& RI_KEY_E0 ≠ 0)])
        else if keyState.isPressed ∧ keyState.hadInterveningKeys then
          (s, [Action.gestureSuppressed vKey])
        else
          (s, [])
      let clearedStates := fired.1.specialKeyStates.set i
        { keyState with isPressed := false, hadInterveningKeys := false }
      ({ fired.1 with specialKeyStates := clearedStates }, true, fired.2)

/-- The keyboard branch of `ProcessRawInput` (main.cpp:197-246):
Escape key-down shuts the application down; any other key-down except
Left (non-extended) Ctrl hides the suggestion overlay; then the
special-key state machine runs, and a key-down of a non-monitored key
is broadcast via `NotifyRegularKeyPressed`. Event storage/logging has
no bearing on this state and is not modelled. -/
def processKeyboardEvent (oracle : Nat → Bool) (genResult : Option String)
    (s : SysState) (vKey flags : Nat) (timestamp : Nat) (cursorPos : Int × Int) :
    SysState × List Action :=
  let isKeyUp := flags &&& RI_KEY_BREAK ≠ 0
  if vKey = VK_ESCAPE ∧ ¬ isKeyUp then
    ({ s with running := false }, [Action.shutdown])
  else
    let hid :=
      if ¬ isKeyUp ∧ ¬ (vKey = VK_CONTROL ∧ flags &&& RI_KEY_E0 = 0) then
        ({ s with overlayShown := false, overlayText := "" }, [Action.hideOverlay])
      else
        (s, ([] : List Action))
    let r := processSpecialKeyEvent oracle genResult hid.1 vKey flags isKeyUp timestamp cursorPos
    let s3 :=
      if ¬ r.2.1 ∧ ¬ isKeyUp then
        { r.1 with specialKeyStates := notifyRegularKeyPressed r.1.specialKeyStates }
      else
        r.1
    (s3, hid.2 ++ r.2.2)

/-- Embeds `SpecialKeyHandler::Initialize` (special_keys.cpp:13-26) plus the
initial values of the other statics: Ctrl, Shift and Alt monitored
with default tracking states, no pending suggestion, overlay hidden,
application running. -/
def initialState : SysState :=
  { specialKeys := [VK_CONTROL, VK_SHIFT, VK_MENU]
    specialKeyStates := [({} : SpecialKeyState), {}, {}]
    pendingSuggestion := ""
    hasPendingSuggestion := false
    overlayShown := false
    overlayText := ""
    running := true }

/-- Whether the shift events inside one character's emitted block are
balanced: as many synthetic shift-downs as shift-ups, and when a
shift-down occurs the block starts with it and ends with the matching
shift-up. -/
def shiftBalanced (evs : List InjEvent) : Bool :=
  (evs.count ⟨VK_SHIFT, false⟩ == evs.count ⟨VK_SHIFT, true⟩) &&
  (!(evs.contains ⟨VK_SHIFT, false⟩) ||
    ((evs.head? == some ⟨VK_SHIFT, false⟩) && (evs.getLast? == some ⟨VK_SHIFT, true⟩)))

/-- A reachable state with a suggestion displayed and pending:
`initialState` after a successful generation gesture returned "hi". -/
def overlayShownState : SysState :=
  { initialState with pendingSuggestion := "hi", hasPendingSuggestion := true,
                      overlayShown := true, overlayText := "hi" }

/-- A reachable state in which Ctrl is held with no intervening key:
`initialState` after a Ctrl key-down at time 5. -/
def ctrlHeldState : SysState :=
  { initialState with specialKeyStates :=
      [{ isPressed := true, hadInterveningKeys := false,
         pressTimestamp := 5, pressPosition := (0, 0) }, {}, {}] }

lemma sendTextChar_events (o : Nat → Bool) (n : Nat) (c : Char) :
    (sendTextChar o n c).1 = pureCharEvents c := by
  by_cases h0 : charToVirtualKey c = 0
  · simp [sendTextChar, pureCharEvents, h0]
  · by_cases hs : charNeedsShift c
    · simp [sendTextChar, pureCharEvents, sendKeyPress, sendVirtualKey, h0, hs]
    · simp [sendTextChar, pureCharEvents, sendKeyPress, sendVirtualKey, h0, hs]

lemma sendTextChar_index (o : Nat → Bool) (n : Nat) (c : Char) :
    (sendTextChar o n c).2.1 = n + (pureCharEvents c).length := by
  by_cases h0 : charToVirtualKey c = 0
  · simp [sendTextChar, pureCharEvents, h0]
  · by_cases hs : charNeedsShift c
    · simp [sendTextChar, pureCharEvents, sendKeyPress, sendVirtualKey, h0, hs]
    · simp [sendTextChar, pureCharEvents, sendKeyPress, sendVirtualKey, h0, hs]

lemma sendTextLoop_events (o : Nat → Bool) (n : Nat) (cs : List Char) :
    (sendTextLoop o n cs).1 = (cs.map pureCharEvents).flatten := by
  induction cs generalizing n with
  | nil => rfl
  | cons c cs ih =>
    simp [sendTextLoop, sendTextChar_events, ih]

lemma sendTextLoop_result (o : Nat → Bool) (n : Nat) (cs : List Char) :
    (sendTextLoop o n cs).2.2 = (perCharResults o n cs).all id := by
  induction cs generalizing n with
  | nil => rfl
  | cons c cs ih =>
    simp [sendTextLoop, perCharResults, ih]

lemma getSpecialKeyIndexAux_nonneg (v : Nat) (keys : List Nat) :
    ∀ i : Nat, 0 ≤ getSpecialKeyIndexAux v i keys ↔ v ∈ keys := by
  induction keys with
  | nil => intro i; simp [getSpecialKeyIndexAux]
  | cons k ks ih =>
    intro i
    by_cases hk : k = v
    · subst hk
      simp [getSpecialKeyIndexAux, Int.natCast_nonneg]
    · simp only [getSpecialKeyIndexAux, if_neg hk, ih (i + 1), List.mem_cons]
      constructor
      · exact Or.inr
      · rintro (h | h)
        · exact absurd h.symm hk
        · exact h

lemma getSpecialKeyIndex_nonneg (keys : List Nat) (v : Nat) :
    0 ≤ getSpecialKeyIndex keys v ↔ v ∈ keys :=
  getSpecialKeyIndexAux_nonneg v keys 0

/-- C1, counterexample: with the injector initialized and the OS
rejecting the very first synthetic event, `SendTextString("ab")` still
emits all four events — the failure on 'a' does not abort the
injection of 'b' — while the call reports failure and the
per-character results are `[false, true]`. -/
theorem sendText_no_fail_fast_cex :
    (sendTextString true (fun n => n != 0) ['a', 'b']).2 = false ∧
    (sendTextString true (fun n => n != 0) ['a', 'b']).1 =
      (sendTextString true (fun _ => true) ['a', 'b']).1 ∧
    (sendTextString true (fun n => n != 0) ['a', 'b']).1 =
      [⟨0x41, false⟩, ⟨0x41, true⟩, ⟨0x42, false⟩, ⟨0x42, true⟩] ∧
    perCharResults (fun n => n != 0) 0 ['a', 'b'] = [false, true] := by
  refine ⟨rfl, rfl, rfl, rfl⟩

/-- C1, amended: for every input string, the result of `SendTextString`
on the initialized path equals the logical AND of the per-character
injection results, but an OS-level injection failure does not abort
the remaining characters — the emitted event trace is the same for
every oracle of per-event OS outcomes (the loop never breaks and the
accumulation `success &= ...` is a non-short-circuiting AND). -/
theorem sendText_result_is_and_of_per_char (o o' : Nat → Bool) (text : List Char) :
    (sendTextString true o text).2 = (perCharResults o 0 text).all id ∧
    (sendTextString true o text).1 = (sendTextString true o' text).1 := by
  refine ⟨?_, ?_⟩
  · simpa [sendTextString] using sendTextLoop_result o 0 text
  · simp [sendTextString, sendTextLoop_events]

/-- C5: with every injection accepted, `SendTextString("Ab1 ")` emits
exactly shift-down, 'A'-down, 'A'-up, shift-up, 'b'-down, 'b'-up,
'1'-down, '1'-up, space-down, space-up, and reports success. (The
injector never consults caps-lock: the synthesized sequence is the
caps-lock-off sequence of the claim.) -/
theorem sendText_Ab1_space_sequence :
    (sendTextString true (fun _ => true) "Ab1 ".toList).1 =
      [⟨VK_SHIFT, false⟩, ⟨0x41, false⟩, ⟨0x41, true⟩, ⟨VK_SHIFT, true⟩,
       ⟨0x42, false⟩, ⟨0x42, true⟩, ⟨0x31, false⟩, ⟨0x31, true⟩,
       ⟨VK_SPACE, false⟩, ⟨VK_SPACE, true⟩] ∧
    (sendTextString true (fun _ => true) "Ab1 ".toList).2 = true := by
  refine ⟨rfl, rfl⟩

/-- C9: the trace of `SendTextString` is the concatenation of one
block per input character, each block a function of the character
alone (so in particular independent of any injection failures), and
every block is shift-balanced: as many synthetic shift-downs as
shift-ups, and when a shift-down is emitted for a character the block
opens with it and closes with the matching shift-up — before the next
character is processed. -/
theorem sendText_shift_balanced (o : Nat → Bool) (text : List Char) :
    (sendTextString true o text).1 = (text.map pureCharEvents).flatten ∧
    text.all (fun c => shiftBalanced (pureCharEvents c)) = true := by
  refine ⟨by simp [sendTextString, sendTextLoop_events], ?_⟩
  rw [List.all_eq_true]
  intro c _
  by_cases h0 : charToVirtualKey c = 0
  · simp [pureCharEvents, h0, shiftBalanced]
  · by_cases hv : charToVirtualKey c = VK_SHIFT
    · by_cases hs : charNeedsShift c
      · simp [pureCharEvents, h0, hs, hv, shiftBalanced, VK_SHIFT,
          List.count_cons, List.count_nil]
      · simp [pureCharEvents, h0, hs, hv, shiftBalanced, VK_SHIFT,
          List.count_cons, List.count_nil]
    · by_cases hs : charNeedsShift c
      · simp [pureCharEvents, h0, hs, hv, shiftBalanced, VK_SHIFT,
          List.count_cons, List.count_nil, InjEvent.mk.injEq]
        exact Nat.add_comm _ 1
      · simp [pureCharEvents, h0, hs, hv, shiftBalanced, VK_SHIFT,
          List.count_cons, List.count_nil, InjEvent.mk.injEq]
        exact Or.inl fun h => hv h.symm

/-- C6: for every letter virtual key (0x41–0x5A) and every modifier
state, `VKeyToChar` yields the single uppercase letter of that key
exactly when `shiftPressed XOR capsLockOn`, and the lowercase letter
otherwise; the produced character is uppercase iff the XOR holds. -/
theorem vKeyToChar_letter_case (shift caps : Bool) (vKey : Nat)
    (h1 : 0x41 ≤ vKey) (h2 : vKey ≤ 0x5A) :
    vKeyToChar shift caps vKey =
      String.singleton
        (if xor shift caps then Char.ofNat vKey else Char.ofNat (vKey + 0x20)) ∧
    (if xor shift caps then Char.ofNat vKey else Char.ofNat (vKey + 0x20)).isUpper
      = xor shift caps ∧
    (Char.ofNat vKey).isUpper = true ∧
    (Char.ofNat (vKey + 0x20)).isLower = true := by
  interval_cases vKey <;> cases shift <;> cases caps <;> exact ⟨rfl, rfl, rfl, rfl⟩

/-- C6 witness: at the letter key 0x41 ('A') with shift held and
caps-lock off the mapping yields "A", an uppercase character. -/
theorem vKeyToChar_letter_case_witness :
    vKeyToChar true false 0x41 =
      String.singleton
        (if xor true false then Char.ofNat 0x41 else Char.ofNat (0x41 + 0x20)) ∧
    (if xor true false then Char.ofNat 0x41 else Char.ofNat (0x41 + 0x20)).isUpper
      = xor true false ∧
    (Char.ofNat 0x41).isUpper = true ∧
    (Char.ofNat (0x41 + 0x20)).isLower = true :=
  vKeyToChar_letter_case true false 0x41 (by decide) (by decide)

/-- C7: invoking the accept gesture handler with no pending suggestion
(`s_hasPendingSuggestion == false`) is a no-op for every injection
oracle: the state — including the pending-suggestion fields — is
returned unchanged and no action (in particular no text injection) is
emitted. -/
theorem accept_no_pending_noop (oracle : Nat → Bool) (s : SysState)
    (h : s.hasPendingSuggestion = false) :
    onRightCtrlPressed oracle s = (s, []) := by
  simp [onRightCtrlPressed, h]

/-- C7 witness: the accept handler on the initial state (no pending
suggestion) returns it unchanged with no actions. -/
theorem accept_no_pending_noop_witness :
    onRightCtrlPressed (fun _ => true) initialState = (initialState, []) :=
  accept_no_pending_noop (fun _ => true) initialState rfl

/-- C8: starting from monitored-key lists in which `v` occurs at most
once (an invariant of `Initialize` and `AddSpecialKey`), re-running
`AddSpecialKey v` on the result of `AddSpecialKey v` changes nothing,
after the first add the code `v` occurs exactly once in the monitored
list with states and keys extended in lockstep, and adding an
already-tracked key returns the state unchanged. -/
theorem addSpecialKey_idempotent (keys : List Nat) (states : List SpecialKeyState)
    (v : Nat) (hcount : keys.count v ≤ 1) :
    (addSpecialKey (addSpecialKey keys states v).1 (addSpecialKey keys states v).2 v =
      addSpecialKey keys states v) ∧
    (addSpecialKey keys states v).1.count v = 1 ∧
    (addSpecialKey keys states v).2.length =
      states.length + ((addSpecialKey keys states v).1.length - keys.length) ∧
    (0 ≤ getSpecialKeyIndex keys v → addSpecialKey keys states v = (keys, states)) := by
  by_cases hmem : v ∈ keys
  · have hidx : 0 ≤ getSpecialKeyIndex keys v := (getSpecialKeyIndex_nonneg keys v).mpr hmem
    have hnoop : addSpecialKey keys states v = (keys, states) := by
      simp [addSpecialKey, hidx]
    refine ⟨by rw [hnoop]; exact hnoop, ?_, ?_, fun _ => hnoop⟩
    · rw [hnoop]
      exact Nat.le_antisymm hcount (List.count_pos_iff.mpr hmem)
    · rw [hnoop]
      simp
  · have hidx : ¬ 0 ≤ getSpecialKeyIndex keys v := fun h =>
      hmem ((getSpecialKeyIndex_nonneg keys v).mp h)
    have hstep : addSpecialKey keys states v =
        (keys ++ [v], states ++ [({} : SpecialKeyState)]) := by
      simp [addSpecialKey, hidx]
    have hmem2 : v ∈ keys ++ [v] := by simp
    have hidx2 : 0 ≤ getSpecialKeyIndex (keys ++ [v]) v :=
      (getSpecialKeyIndex_nonneg (keys ++ [v]) v).mpr hmem2
    refine ⟨?_, ?_, ?_, fun h => absurd h hidx⟩
    · rw [hstep]
      simp [addSpecialKey, hidx2]
    · rw [hstep]
      simp [List.count_eq_zero_of_not_mem hmem]
    · rw [hstep]
      simp

/-- C8 witness: adding the caps-lock key 0x14 twice to the default
monitored set tracks it exactly once and the second add is a no-op. -/
theorem addSpecialKey_idempotent_witness :
    (addSpecialKey (addSpecialKey [0x11, 0x10, 0x12] [{}, {}, {}] 0x14).1
        (addSpecialKey [0x11, 0x10, 0x12] [{}, {}, {}] 0x14).2 0x14 =
      addSpecialKey [0x11, 0x10, 0x12] [{}, {}, {}] 0x14) ∧
    (addSpecialKey [0x11, 0x10, 0x12] [{}, {}, {}] 0x14).1.count 0x14 = 1 ∧
    (addSpecialKey [0x11, 0x10, 0x12] [{}, {}, {}] 0x14).2.length =
      ([{}, {}, {}] : List SpecialKeyState).length +
        ((addSpecialKey [0x11, 0x10, 0x12] [{}, {}, {}] 0x14).1.length -
          ([0x11, 0x10, 0x12] : List Nat).length) ∧
    (0 ≤ getSpecialKeyIndex [0x11, 0x10, 0x12] 0x14 →
      addSpecialKey [0x11, 0x10, 0x12] [{}, {}, {}] 0x14 =
        ([0x11, 0x10, 0x12], [{}, {}, {}])) :=
  addSpecialKey_idempotent [0x11, 0x10, 0x12] [{}, {}, {}] 0x14 (by decide)

/-- C10: when the accept gesture fires with a pending non-empty
suggestion, the handler clears the pending suggestion and hides the
overlay for every injection oracle — including oracles under which
every injected event fails — so a failed injection still consumes the
suggestion. -/
theorem accept_pending_always_clears (oracle : Nat → Bool) (s : SysState)
    (h1 : s.hasPendingSuggestion = true) (h2 : s.pendingSuggestion ≠ "") :
    onRightCtrlPressed oracle s =
      ({ s with pendingSuggestion := "", hasPendingSuggestion := false,
                overlayShown := false, overlayText := "" },
       [Action.injectText s.pendingSuggestion, Action.hideOverlay]) := by
  simp [onRightCtrlPressed, h1, h2]

/-- C10 witness: accepting the pending suggestion "hi" under an oracle
that fails every injection still clears the pending state and hides
the overlay. -/
theorem accept_pending_always_clears_witness :
    onRightCtrlPressed (fun _ => false) overlayShownState =
      ({ overlayShownState with pendingSuggestion := "", hasPendingSuggestion := false,
                                overlayShown := false, overlayText := "" },
       [Action.injectText overlayShownState.pendingSuggestion, Action.hideOverlay]) :=
  accept_pending_always_clears (fun _ => false) overlayShownState rfl (by decide)

lemma processSpecial_not_monitored (o : Nat → Bool) (g : Option String) (s : SysState)
    (vKey flags : Nat) (isKeyUp : Bool) (ts : Nat) (pos : Int × Int)
    (h : getSpecialKeyIndex s.specialKeys vKey < 0) :
    processSpecialKeyEvent o g s vKey flags isKeyUp ts pos = (s, false, []) := by
  simp [processSpecialKeyEvent, h]

/-- The tracking slot written by a special key-down: pressed, cleared
intervening flag, recorded press timestamp and cursor position
(special_keys.cpp:58-63; all four fields are overwritten). -/
def pressedSlot (ts : Nat) (pos : Int × Int) : SpecialKeyState :=
  { isPressed := true, hadInterveningKeys := false,
    pressTimestamp := ts, pressPosition := pos }

lemma processSpecial_keydown (o : Nat → Bool) (g : Option String) (s : SysState)
    (vKey flags ts : Nat) (pos : Int × Int)
    (h : ¬ getSpecialKeyIndex s.specialKeys vKey < 0) :
    processSpecialKeyEvent o g s vKey flags false ts pos =
      ({ s with specialKeyStates := (s.specialKeyStates.set
          (getSpecialKeyIndex s.specialKeys vKey).toNat (pressedSlot ts pos)) },
       true, []) := by
  simp [processSpecialKeyEvent, pressedSlot, h]

/-- C2, counterexample: from the initial state, a Ctrl key-down
followed by a Shift key-down — a key-down of another monitored
special key while Ctrl is held — leaves Ctrl's
`hadInterveningKeys` false (the special key-down is handled by
`ProcessSpecialKeyEvent`, which returns true, so
`NotifyRegularKeyPressed` is never invoked and nothing is broadcast
to the held special keys). -/
theorem special_keydown_no_broadcast_cex :
    ((processKeyboardEvent (fun _ => true) none
        (processKeyboardEvent (fun _ => true) none initialState
          VK_CONTROL 0 100 (0, 0)).1
        VK_SHIFT 0 200 (0, 0)).1.specialKeyStates.getD 0 {}).isPressed = true ∧
    ((processKeyboardEvent (fun _ => true) none
        (processKeyboardEvent (fun _ => true) none initialState
          VK_CONTROL 0 100 (0, 0)).1
        VK_SHIFT 0 200 (0, 0)).1.specialKeyStates.getD 1 {}).isPressed = true ∧
    ((processKeyboardEvent (fun _ => true) none
        (processKeyboardEvent (fun _ => true) none initialState
          VK_CONTROL 0 100 (0, 0)).1
        VK_SHIFT 0 200 (0, 0)).1.specialKeyStates.getD 0 {}).hadInterveningKeys
      = false := by
  refine ⟨rfl, rfl, rfl⟩

/-- C2, amended: on a key-down (not Escape), `hadInterveningKeys` is
broadcast to every currently pressed special key exactly when the key
pressed is NOT itself a monitored special key; a key-down of a
monitored special key only updates that key's own tracking slot
(pressed, cleared intervening flag, press timestamp and position) and
does not set `hadInterveningKeys` for the other held special keys. -/
theorem keydown_intervening_broadcast (o : Nat → Bool) (g : Option String) (s : SysState)
    (vKey flags ts : Nat) (pos : Int × Int)
    (hdown : flags &&& RI_KEY_BREAK = 0)
    (hesc : vKey ≠ VK_ESCAPE) :
    (getSpecialKeyIndex s.specialKeys vKey < 0 →
      (processKeyboardEvent o g s vKey flags ts pos).1.specialKeyStates =
        s.specialKeyStates.map (fun st =>
          if st.isPressed then { st with hadInterveningKeys := true } else st)) ∧
    (¬ getSpecialKeyIndex s.specialKeys vKey < 0 →
      (processKeyboardEvent o g s vKey flags ts pos).1.specialKeyStates =
        s.specialKeyStates.set (getSpecialKeyIndex s.specialKeys vKey).toNat
          (pressedSlot ts pos)) := by
  constructor
  · intro hidx
    by_cases hlc : vKey = VK_CONTROL ∧ flags &&& RI_KEY_E0 = 0
    · rcases hlc with ⟨h1, h2⟩
      subst h1
      simp [processKeyboardEvent, processSpecial_not_monitored,
        notifyRegularKeyPressed, hdown, hesc, h2, hidx]
    · simp [processKeyboardEvent, processSpecial_not_monitored,
        notifyRegularKeyPressed, hdown, hesc, hlc, hidx]
  · intro hidx
    by_cases hlc : vKey = VK_CONTROL ∧ flags &&& RI_KEY_E0 = 0
    · rcases hlc with ⟨h1, h2⟩
      subst h1
      simp [processKeyboardEvent, processSpecial_keydown,
        notifyRegularKeyPressed, hdown, hesc, h2, hidx]
    · simp [processKeyboardEvent, processSpecial_keydown,
        notifyRegularKeyPressed, hdown, hesc, hlc, hidx]

/-- C2 witness: a key-down of the unmonitored key 0x41 ('A') while
Ctrl is held marks every pressed special key as having intervening
keys. -/
theorem keydown_intervening_broadcast_witness :
    (processKeyboardEvent (fun _ => true) none ctrlHeldState 0x41 0 7 (0, 0)).1.specialKeyStates =
      ctrlHeldState.specialKeyStates.map (fun st =>
        if st.isPressed then { st with hadInterveningKeys := true } else st) :=
  (keydown_intervening_broadcast (fun _ => true) none ctrlHeldState 0x41 0 7 (0, 0)
    (by decide) (by decide)).1 (by decide)

/-- C3, counterexample: with a suggestion displayed (state reached by
a successful generation), a key-down of the accept gesture itself —
Right Ctrl, `VK_CONTROL` with the extended flag — DOES invoke
`SuggestionOverlay::HideSuggestion` and leaves the overlay hidden:
main.cpp:221 only exempts Left (non-extended) Ctrl from hiding. -/
theorem accept_gesture_keydown_hides_cex :
    Action.hideOverlay ∈ (processKeyboardEvent (fun _ => true) none overlayShownState
      VK_CONTROL RI_KEY_E0 300 (0, 0)).2 ∧
    (processKeyboardEvent (fun _ => true) none overlayShownState
      VK_CONTROL RI_KEY_E0 300 (0, 0)).1.overlayShown = false := by
  refine ⟨by decide, rfl⟩

/-- C3, amended: while a suggestion is displayed, every key-down other
than Left (non-extended) Ctrl and Escape hides the suggestion overlay;
a Left Ctrl key-down and an Escape key-down leave it shown; in
particular the accept gesture's own key-down (extended Ctrl) falls in
the first group and hides the overlay — acceptance happens at the
subsequent key-up through the special-key handler. -/
theorem overlay_hidden_on_keydown (o : Nat → Bool) (g : Option String) (s : SysState)
    (vKey flags ts : Nat) (pos : Int × Int)
    (hshown : s.overlayShown = true)
    (hdown : flags &&& RI_KEY_BREAK = 0) :
    (¬ (vKey = VK_CONTROL ∧ flags &&& RI_KEY_E0 = 0) → vKey ≠ VK_ESCAPE →
      Action.hideOverlay ∈ (processKeyboardEvent o g s vKey flags ts pos).2 ∧
      (processKeyboardEvent o g s vKey flags ts pos).1.overlayShown = false) ∧
    ((vKey = VK_CONTROL ∧ flags &&& RI_KEY_E0 = 0) →
      Action.hideOverlay ∉ (processKeyboardEvent o g s vKey flags ts pos).2 ∧
      (processKeyboardEvent o g s vKey flags ts pos).1.overlayShown = true) ∧
    (vKey = VK_ESCAPE →
      Action.hideOverlay ∉ (processKeyboardEvent o g s vKey flags ts pos).2 ∧
      (processKeyboardEvent o g s vKey flags ts pos).1.overlayShown = true) := by
  refine ⟨?_, ?_, ?_⟩
  · intro hlc hesc
    by_cases hidx : getSpecialKeyIndex s.specialKeys vKey < 0
    · simp [processKeyboardEvent, processSpecial_not_monitored, notifyRegularKeyPressed,
        hdown, hesc, hlc, hidx]
    · simp [processKeyboardEvent, processSpecial_keydown,
        hdown, hesc, hlc, hidx]
  · rintro ⟨h1, h2⟩
    subst h1
    have hne : VK_CONTROL ≠ VK_ESCAPE := by decide
    by_cases hidx : getSpecialKeyIndex s.specialKeys VK_CONTROL < 0
    · simp [processKeyboardEvent, processSpecial_not_monitored, notifyRegularKeyPressed,
        hdown, h2, hidx, hshown, hne]
    · simp [processKeyboardEvent, processSpecial_keydown,
        hdown, h2, hidx, hshown, hne]
  · intro hesc
    subst hesc
    simp [processKeyboardEvent, hdown, hshown]

/-- C3 witness: with the suggestion displayed, a key-down of the
ordinary key 0x41 ('A') hides the overlay. -/
theorem overlay_hidden_on_keydown_witness :
    Action.hideOverlay ∈ (processKeyboardEvent (fun _ => true) none overlayShownState
      0x41 0 7 (0, 0)).2 ∧
    (processKeyboardEvent (fun _ => true) none overlayShownState
      0x41 0 7 (0, 0)).1.overlayShown = false :=
  (overlay_hidden_on_keydown (fun _ => true) none overlayShownState 0x41 0 7 (0, 0)
    rfl (by decide)).1 (by decide) (by decide)

/-- The tracking slot `s_specialKeyStates[GetSpecialKeyIndex(vKey)]`
consulted by the state machine for a monitored key. -/
def trackedSlot (s : SysState) (vKey : Nat) : SpecialKeyState :=
  s.specialKeyStates.getD (getSpecialKeyIndex s.specialKeys vKey).toNat {}

lemma onRightCtrl_no_gesture (o : Nat → Bool) (s : SysState) :
    (onRightCtrlPressed o s).2.filter Action.isGesture = [] := by
  by_cases h : s.hasPendingSuggestion ∧ s.pendingSuggestion ≠ "" <;>
    simp [onRightCtrlPressed, h, Action.isGesture]

lemma onLeftCtrl_no_gesture (g : Option String) (s : SysState) :
    (onLeftCtrlPressed g s).2.filter Action.isGesture = [] := by
  rcases g with _ | line
  · simp [onLeftCtrlPressed, Action.isGesture]
  · by_cases h : line = "" <;> simp [onLeftCtrlPressed, h, Action.isGesture]

/-- C4, counterexample: a key-up of the monitored key Ctrl processed
from the initial state — where its tracking state is not pressed, as
happens for a spurious or unmatched release — produces NEITHER a
fired nor a suppressed gesture, although the event is handled as a
special-key event. -/
theorem release_without_press_no_outcome_cex :
    0 ≤ getSpecialKeyIndex initialState.specialKeys VK_CONTROL ∧
    (processSpecialKeyEvent (fun _ => true) none initialState VK_CONTROL
      RI_KEY_BREAK true 0 (0, 0)).2.1 = true ∧
    (processSpecialKeyEvent (fun _ => true) none initialState VK_CONTROL
      RI_KEY_BREAK true 0 (0, 0)).2.2 = [] := by
  refine ⟨by decide, rfl, rfl⟩

/-- C4, amended: for a key-up of a monitored special key whose
tracking state is pressed at release time, exactly one of
{gesture fired, gesture suppressed} occurs, and which one is
determined solely by `hadInterveningKeys` at release time (suppressed
iff it is set); when the tracking state is not pressed — an unmatched
release — neither occurs. -/
theorem release_outcome_dichotomy (o : Nat → Bool) (g : Option String) (s : SysState)
    (vKey flags ts : Nat) (pos : Int × Int)
    (hmon : ¬ getSpecialKeyIndex s.specialKeys vKey < 0)
    (hp : (trackedSlot s vKey).isPressed = true) :
    ((processSpecialKeyEvent o g s vKey flags true ts pos).2.2.filter Action.isGesture) =
      (if (trackedSlot s vKey).hadInterveningKeys then
        [Action.gestureSuppressed vKey]
       else
        [Action.gestureFired vKey (flags &&& RI_KEY_E0 ≠ 0)]) := by
  have hp2 := hp
  rw [show trackedSlot s vKey = s.specialKeyStates.getD
      (getSpecialKeyIndex s.specialKeys vKey).toNat {} from rfl] at hp2
  simp only [List.getD_eq_getElem?_getD, Prod.mk_zero_zero] at hp2
  by_cases hhad : (trackedSlot s vKey).hadInterveningKeys
  · have hh2 := hhad
    rw [show trackedSlot s vKey = s.specialKeyStates.getD
        (getSpecialKeyIndex s.specialKeys vKey).toNat {} from rfl] at hh2
    simp only [List.getD_eq_getElem?_getD, Prod.mk_zero_zero] at hh2
    simp [processSpecialKeyEvent, trackedSlot, hmon, hp2, hh2, Action.isGesture]
  · have hh2 := hhad
    rw [show trackedSlot s vKey = s.specialKeyStates.getD
        (getSpecialKeyIndex s.specialKeys vKey).toNat {} from rfl] at hh2
    simp only [List.getD_eq_getElem?_getD, Prod.mk_zero_zero, Bool.not_eq_true] at hh2
    by_cases hctrl : vKey = VK_CONTROL
    · subst hctrl
      by_cases he0 : flags &&& RI_KEY_E0 = 0
      · simp [processSpecialKeyEvent, trackedSlot, hmon, hp2, hh2, he0,
          Action.isGesture, onLeftCtrl_no_gesture]
      · simp [processSpecialKeyEvent, trackedSlot, hmon, hp2, hh2, he0,
          Action.isGesture, onRightCtrl_no_gesture]
    · simp [processSpecialKeyEvent, trackedSlot, hmon, hp2, hh2, hctrl,
        Action.isGesture]

/-- C4 witness: releasing a held Left Ctrl with no intervening keys
fires exactly the (non-extended Ctrl) gesture. -/
theorem release_outcome_dichotomy_witness :
    ((processSpecialKeyEvent (fun _ => true) none ctrlHeldState VK_CONTROL
        1 true 9 (0, 0)).2.2.filter Action.isGesture) =
      (if (trackedSlot ctrlHeldState VK_CONTROL).hadInterveningKeys then
        [Action.gestureSuppressed VK_CONTROL]
       else
        [Action.gestureFired VK_CONTROL (1 &&& RI_KEY_E0 ≠ 0)]) :=
  release_outcome_dichotomy (fun _ => true) none ctrlHeldState VK_CONTROL 1 9 (0, 0)
    (by decide) (by decide)

end WinOpAuto
